import Mathlib

/-
Shallow embedding of the admission / scheduling / lifecycle-tracking core of
fltk/core/distributed/orchestrator.py.

Modelling conventions:
  * A Python `ArrivalTask` is a record.  The concrete ordering of tasks lives
    in fltk/util/task/arrival_task.py, which is not part of the provided
    sources; following the spec, tasks are ordered by (priority, arrival
    sequence number).
  * `queue.PriorityQueue` is modelled by a list together with `popMin`, which
    removes the least element under the task order (the documented semantics
    of the stdlib heap: `get` returns the smallest queued element).
  * Python `set` becomes `Finset`, exceptions become `Except` values, and the
    external cluster (job submission, config-map registration, status query)
    is modelled by oracle functions passed as arguments.
  * Python floats in the budget-adaptive policy are modelled by exact
    rationals; Python `int(x)` is truncation toward zero (`ratTrunc`).
-/

namespace FLTK

/-- The experiment type of a task.  The renderer distinguishes
`FederatedArrivalTask` and `DistributedArrivalTask`; any other class of task
hits the `else` branch of `render_template`. -/
inductive ExperimentType where
  | federated : ExperimentType
  | distributed : ExperimentType
  | unknown : String → ExperimentType
deriving DecidableEq

/-- Modelled from the spec: one admitted unit of work (`_ArrivalTask`, whose
definition is outside the provided sources).  `id` is the unique identifier,
`priority` the queue priority, `seq` the arrival sequence number used as the
tie-break of the queue order, `total_epochs` the value of
`hyper_parameters.default.total_epochs`, `variant` the runtime class of the
task and `type_map` the keys of `task.type_map` (the roles to render). -/
structure ArrivalTask where
  id : String
  priority : Nat
  seq : Nat
  total_epochs : ℚ
  variant : ExperimentType
  type_map : List String
deriving DecidableEq

/-- Strict queue order on tasks: lexicographic on (priority, seq). -/
def keyLt (a b : ArrivalTask) : Prop :=
  a.priority < b.priority ∨ (a.priority = b.priority ∧ a.seq < b.seq)

/-- Reflexive queue order on tasks: lexicographic on (priority, seq). -/
def keyLe (a b : ArrivalTask) : Prop :=
  a.priority < b.priority ∨ (a.priority = b.priority ∧ a.seq ≤ b.seq)

instance (a b : ArrivalTask) : Decidable (keyLt a b) := by
  unfold keyLt; infer_instance

instance (a b : ArrivalTask) : Decidable (keyLe a b) := by
  unfold keyLe; infer_instance

/-- `PriorityQueue.get`: remove the least element (under the task order) from
the queue, returning it together with the remaining queue; `none` on an empty
queue (the Python call would block / raise `Empty` in non-blocking mode). -/
def popMin : List ArrivalTask → Option (ArrivalTask × List ArrivalTask)
  | [] => none
  | t :: ts =>
    match popMin ts with
    | none => some (t, [])
    | some (m, rest) => if keyLt m t then some (m, t :: rest) else some (t, ts)

/-- Fuel-indexed repeated popping of the queue. -/
def drainGo : Nat → List ArrivalTask → List ArrivalTask
  | 0, _ => []
  | fuel + 1, l =>
    match popMin l with
    | none => []
    | some (m, rest) => m :: drainGo fuel rest

/-- Repeatedly pop the priority queue until it is empty, collecting the popped
tasks in order. -/
def drainAll (l : List ArrivalTask) : List ArrivalTask :=
  drainGo l.length l

/-- `cluster_config.orchestrator` section of the configuration. -/
structure OrchestratorConf where
  parallel_execution : Bool
deriving DecidableEq

/-- `cluster_config` section of the configuration.  The Python attribute is
called `namespace`, a Lean keyword, hence `cluster_namespace`. -/
structure ClusterConfig where
  cluster_namespace : String
  orchestrator : OrchestratorConf
deriving DecidableEq

/-- The `DistributedConfig` fields consumed by the orchestrator. -/
structure DistributedConfig where
  cluster_config : ClusterConfig
deriving DecidableEq

/-- The task-set state of one `Orchestrator`: `pending_tasks` (the priority
queue), `deployed_tasks`, `completed_tasks`, together with bookkeeping
counters for the number of tasks ever admitted into `pending_tasks` and the
number of arrivals dropped by a construction error. -/
structure OrchState where
  pending : List ArrivalTask
  deployed : Finset ArrivalTask
  completed : Finset ArrivalTask
  admitted : Nat
  dropped : Nat
deriving DecidableEq

/-- `Orchestrator.wait_for_jobs_to_complete`, line 234: the job name under
which the status of a deployed task is queried. -/
def status_query_name (task_id : String) : String :=
  String.append ("trainjob-") task_id

/-- `Orchestrator.wait_for_jobs_to_complete`, line 235: the namespace in which
the status of a deployed task is queried, as a function of the configuration.
The source passes the literal string, not the configured namespace. -/
def status_query_namespace (_cfg : DistributedConfig) : String :=
  "test"

/-- The namespace to which jobs are submitted
(`self._client.create(job_to_start, namespace=self._config.cluster_config.namespace)`,
line 290). -/
def submit_namespace (cfg : DistributedConfig) : String :=
  cfg.cluster_config.cluster_namespace

/-- `job_status and job_status in {'Completed', 'Failed', 'Succeeded'}`:
`none` stands for a failed status query (the caught exception leaves
`job_status = None`). -/
def statusIsTerminal : Option String → Bool
  | some st => st = "Completed" || st = "Failed" || st = "Succeeded"
  | none => false

/-- One iteration of the `while len(self.deployed_tasks) > 0` loop of
`wait_for_jobs_to_complete` (lines 231-246): every deployed task whose status
query succeeds with a terminal status is collected into `task_to_move`, then
added to `completed_tasks` and removed from `deployed_tasks`.  The status
oracle returns `none` when `get_job_status` raises; that exception is caught
inside the loop body and never escalated. -/
def waitIteration (status : ArrivalTask → Option String) (s : OrchState) :
    OrchState :=
  let task_to_move := s.deployed.filter (fun t => statusIsTerminal (status t) = true)
  { s with
    completed := s.completed ∪ task_to_move,
    deployed := s.deployed \ task_to_move }

/-- The polling loop of `wait_for_jobs_to_complete`, with a fuel bound (the
Python loop may run forever) and an iteration counter feeding the status
oracle.  Returns the final state together with the number of executed loop
bodies, each of which ends in one `time.sleep(SLEEP_TIME)`. -/
def waitLoop (status : Nat → ArrivalTask → Option String) :
    Nat → Nat → OrchState → OrchState × Nat
  | 0, _, s => (s, 0)
  | fuel + 1, i, s =>
    if s.deployed = ∅ then (s, 0)
    else
      let r := waitLoop status fuel (i + 1) (waitIteration (status i) s)
      (r.1, r.2 + 1)

/-- `Orchestrator.wait_for_jobs_to_complete(others)`.  When `others` is truthy
the matched identifiers are wrapped as historical tasks and added to
`deployed_tasks` (the identifier extraction by UUID regex is collapsed into
the given task list); then the polling loop runs. -/
def wait_for_jobs_to_complete (status : Nat → ArrivalTask → Option String)
    (fuel : Nat) (others : Option (List ArrivalTask)) (s : OrchState) :
    OrchState × Nat :=
  let s0 := match others with
    | none => s
    | some lst => if lst.isEmpty then s
      else { s with deployed := s.deployed ∪ lst.toFinset }
  waitLoop status fuel 0 s0

/-- `render_template` (lines 70-77): selects the Jinja template by the
runtime class of the task and renders it; an unrecognized variant raises
`Exception(f"Cannot handle type of task: {task}")`.  The rendered artifact is
represented by the chosen template name together with the role, the content
itself being produced by the external Jinja collaborator. -/
def render_template (task : ArrivalTask) (tpe : String) (_replication : Int)
    (_experiment_path : String) : Except String String :=
  match task.variant with
  | ExperimentType.federated =>
    Except.ok (String.append ("node.jinja.yaml:") tpe)
  | ExperimentType.distributed =>
    Except.ok (String.append ("dist_node.jinja.yaml:") tpe)
  | ExperimentType.unknown name =>
    Except.error (String.append ("Cannot handle type of task: ") name)

/-- The `for tpe in task.type_map.keys()` loop of `_prepare_experiment_maps`:
renders one config map per role; the first raising render aborts the whole
preparation. -/
def renderRoles (task : ArrivalTask) (replication : Int)
    (experiment_path : String) : List String → Except String (List String)
  | [] => Except.ok []
  | tpe :: rest =>
    match render_template task tpe replication experiment_path with
    | Except.error e => Except.error e
    | Except.ok c =>
      match renderRoles task replication experiment_path rest with
      | Except.error e => Except.error e
      | Except.ok cs => Except.ok (c :: cs)

/-- `_prepare_experiment_maps` (lines 80-105). -/
def prepare_experiment_maps (task : ArrivalTask) (replication : Int)
    (experiment_path : String) : Except String (List String) :=
  renderRoles task replication experiment_path task.type_map

/-- The body of one deployment (lines 282-291): render and register the
config maps, then submit the constructed job.  `register` models
`_create_config_maps` (the resource-store `create` calls) and `submit` models
`self._client.create`; `false` means the external call raises. -/
def deployTask (register submit : ArrivalTask → Bool) (replication : Int)
    (experiment_path : String) (task : ArrivalTask) : Except String Unit :=
  match prepare_experiment_maps task replication experiment_path with
  | Except.error e => Except.error e
  | Except.ok _ =>
    if register task then
      if submit task then Except.ok ()
      else Except.error (String.append ("job submission raised for ") task.id)
    else Except.error (String.append ("config map creation raised for ") task.id)

/-- Outcome of a control-loop fragment: either it runs to completion in some
state, or an uncaught exception escapes `run` while the state machine is in
the recorded state. -/
inductive RunOutcome where
  | finished : OrchState → RunOutcome
  | crashed : String → OrchState → RunOutcome
deriving DecidableEq

/-- Fuel-indexed deployment loop (`while not self.pending_tasks.empty()`,
lines 277-291, in parallel-execution mode): pop the highest-priority task,
run the deployment body; on success add the task to `deployed_tasks` and
continue, and on an exception the loop (and `run`) aborts with the task
already removed from `pending_tasks` and not yet added to `deployed_tasks`.
The source wraps this loop in no `try`. -/
def deployGo (register submit : ArrivalTask → Bool) (replication : Int)
    (experiment_path : String) : Nat → OrchState → RunOutcome
  | 0, s => RunOutcome.finished s
  | fuel + 1, s =>
    match popMin s.pending with
    | none => RunOutcome.finished s
    | some (t, rest) =>
      match deployTask register submit replication experiment_path t with
      | Except.error e => RunOutcome.crashed e { s with pending := rest }
      | Except.ok _ =>
        deployGo register submit replication experiment_path fuel
          { s with pending := rest, deployed := insert t s.deployed }

/-- The deployment pass over the whole pending queue: the queue length is
exact fuel, since every iteration removes one task. -/
def deployLoop (register submit : ArrivalTask → Bool) (replication : Int)
    (experiment_path : String) (s : OrchState) : RunOutcome :=
  deployGo register submit replication experiment_path s.pending.length s

/-- The admission pass (`while not self._arrival_generator.arrivals.empty()`,
lines 267-274): each arrival is turned into a task by `_generate_task`; the
oracle list carries the generation results (`Except.error` models a
construction error raised by `_generate_task`, which the source does not
catch: it aborts the loop with the arrival consumed and dropped). -/
def admitAll : List (Except String ArrivalTask) → OrchState →
    Except (String × OrchState) OrchState
  | [], s => Except.ok s
  | Except.error e :: _, s =>
    Except.error (e, { s with dropped := s.dropped + 1 })
  | Except.ok t :: rest, s =>
    admitAll rest
      { s with pending := s.pending ++ [t], admitted := s.admitted + 1 }

/-- One iteration of `SimulatedOrchestrator.run`'s outer loop in
parallel-execution mode: the admission pass followed by the deployment pass;
an uncaught exception in either pass escapes `run`. -/
def simulatedIteration (gens : List (Except String ArrivalTask))
    (register submit : ArrivalTask → Bool) (replication : Int)
    (experiment_path : String) (s : OrchState) : RunOutcome :=
  match admitAll gens s with
  | Except.error (e, s1) => RunOutcome.crashed e s1
  | Except.ok s1 => deployLoop register submit replication experiment_path s1

/-- The number of tasks currently housed by the three task sets. -/
def taskCount (s : OrchState) : Nat :=
  s.pending.length + s.deployed.card + s.completed.card

/-- Regression constant of `OptimizedSimulatedOrchestrator._optimize_epochs`. -/
def INTERCEPT : ℚ := -31629 / 10000

/-- Regression constant of `OptimizedSimulatedOrchestrator._optimize_epochs`. -/
def SLOPE : ℚ := 270135 / 10000

/-- Epoch cap of `OptimizedSimulatedOrchestrator._optimize_epochs`. -/
def BASE_EPOCHS : ℤ := 10

/-- Python `int(q)`: truncation toward zero. -/
def ratTrunc (q : ℚ) : ℤ :=
  if 0 ≤ q then Int.floor q else Int.ceil q

/-- `estimated_time` inside `_optimize_epochs`:
`INTERCEPT + SLOPE * task1.hyper_parameters.default.total_epochs`. -/
def estimated_time (task1 : ArrivalTask) : ℚ :=
  INTERCEPT + SLOPE * task1.total_epochs

/-- `estimate_epochs` inside `_optimize_epochs`:
`int((time - INTERCEPT) / SLOPE)`. -/
def estimate_epochs (time : ℚ) : ℤ :=
  ratTrunc ((time - INTERCEPT) / SLOPE)

/-- `current_queue_time`: the summed estimated cost of the tasks currently in
`self.pending_tasks.queue`. -/
def current_queue_time (pending : List ArrivalTask) : ℚ :=
  (pending.map estimated_time).sum

/-- The epoch budget `_optimize_epochs` assigns via
`min(max(estimate_epochs(allocated_time), 1), BASE_EPOCHS)`, given the value
of `self.total_time` and the pending queue. -/
def optimizeValue (total_time : ℚ) (pending : List ArrivalTask) : ℤ :=
  min (max (estimate_epochs (total_time - current_queue_time pending)) 1) BASE_EPOCHS

/-- `OptimizedSimulatedOrchestrator._optimize_epochs(task)`: reads
`self.total_time` (modelled as `Option ℚ`: `none` when the attribute was
never assigned, in which case the lookup raises `AttributeError`), then
rewrites the task's epoch budget with `task.set_epochs` and returns the
task. -/
def optimize_epochs (total_time : Option ℚ) (pending : List ArrivalTask)
    (task : ArrivalTask) : Except String ArrivalTask :=
  match total_time with
  | none => Except.error ("AttributeError: total_time")
  | some T =>
    Except.ok { task with total_epochs := (optimizeValue T pending : ℚ) }

/-- The attributes bound on an `OptimizedSimulatedOrchestrator` instance
after `__init__`: the class-level names of `Orchestrator` (lines 140-145)
and the instance attributes set by `Orchestrator.__init__` (lines 147-157).
`OptimizedSimulatedOrchestrator.__init__` only calls `super().__init__`, and
no method of the hierarchy ever assigns `total_time`. -/
def optimizedOrchestratorAttrs : List String :=
  ["_alive", "pending_tasks", "deployed_tasks", "completed_tasks",
   "SLEEP_TIME", "_logger", "_cluster_mgr", "_arrival_generator", "_config",
   "_client", "_v1"]

/-- The value of the (absent) `total_time` attribute on a freshly constructed
`OptimizedSimulatedOrchestrator`: no assignment exists in the source, so the
lookup has nothing to return. -/
def init_total_time : Option ℚ := none

/-- Concrete deployed task used to exercise the lifecycle tracker. -/
def c2_task : ArrivalTask :=
  ⟨("w2"), 1, 0, 2, ExperimentType.distributed, [("learner")]⟩

/-- Concrete state with `c2_task` deployed. -/
def c2_state : OrchState := ⟨[], {c2_task}, ∅, 1, 0⟩

/-- Concrete status oracle answering `Succeeded` for every task. -/
def c2_status (_t : ArrivalTask) : Option String := some ("Succeeded")

/-- Concrete task whose job submission will fail. -/
def c5_taskFail : ArrivalTask :=
  ⟨("fail"), 1, 0, 1, ExperimentType.distributed, [("learner")]⟩

/-- Concrete lower-priority task queued behind `c5_taskFail`. -/
def c5_taskLater : ArrivalTask :=
  ⟨("later"), 2, 1, 1, ExperimentType.distributed, [("learner")]⟩

/-- Concrete state with both tasks pending. -/
def c5_state : OrchState := ⟨[c5_taskFail, c5_taskLater], ∅, ∅, 2, 0⟩

/-- Submission oracle that raises exactly for `c5_taskFail`. -/
def c5_submit (t : ArrivalTask) : Bool := !(t.id == "fail")

/-- Concrete task of an unrecognized variant. -/
def c6_task : ArrivalTask :=
  ⟨("u1"), 1, 0, 1, ExperimentType.unknown ("quantum"), [("learner")]⟩

/-- Concrete state with the unrecognized-variant task pending. -/
def c6_state : OrchState := ⟨[c6_task], ∅, ∅, 1, 0⟩

/-- Concrete admitted task whose submission fails, for the lost-task run. -/
def c1_task : ArrivalTask :=
  ⟨("94f66b1e"), 1, 0, 1, ExperimentType.distributed, [("learner")]⟩

/-- The state in which the run crashes after admitting `c1_task` and failing
to submit it: the task is in none of the three sets. -/
def c1_lost : OrchState := ⟨[], ∅, ∅, 1, 0⟩

/-- Concrete pending task requesting 10 epochs (spec Scenario C). -/
def c8_pending : ArrivalTask :=
  ⟨("p10"), 1, 0, 10, ExperimentType.distributed, [("learner")]⟩

/-- Concrete newly admitted task requesting 50 epochs (spec Scenario C). -/
def c8_new : ArrivalTask :=
  ⟨("n50"), 1, 1, 50, ExperimentType.distributed, [("learner")]⟩

theorem keyLe_refl (a : ArrivalTask) : keyLe a a := by
  unfold keyLe; omega

theorem keyLt_keyLe {a b : ArrivalTask} (h : keyLt a b) : keyLe a b := by
  unfold keyLt at h; unfold keyLe; omega

theorem keyLe_of_not_keyLt {a b : ArrivalTask} (h : ¬ keyLt a b) : keyLe b a := by
  unfold keyLt at h; unfold keyLe; omega

theorem keyLe_trans {a b c : ArrivalTask} (hab : keyLe a b) (hbc : keyLe b c) :
    keyLe a c := by
  unfold keyLe at hab hbc ⊢; omega

theorem keyLe_total (a b : ArrivalTask) : keyLe a b ∨ keyLe b a := by
  unfold keyLe; omega

theorem popMin_nil_iff {l : List ArrivalTask} : popMin l = none ↔ l = [] := by
  cases l with
  | nil => simp [popMin]
  | cons t ts =>
    simp only [popMin]
    cases h : popMin ts with
    | none => simp
    | some p =>
      obtain ⟨m, rest⟩ := p
      by_cases hlt : keyLt m t <;> simp [hlt]

theorem popMin_perm {l : List ArrivalTask} {m : ArrivalTask}
    {rest : List ArrivalTask} (h : popMin l = some (m, rest)) :
    (m :: rest).Perm l := by
  induction l generalizing m rest with
  | nil => simp [popMin] at h
  | cons t ts ih =>
    simp only [popMin] at h
    cases hts : popMin ts with
    | none =>
      rw [hts] at h
      simp only [Option.some.injEq, Prod.mk.injEq] at h
      obtain ⟨rfl, rfl⟩ := h
      have : ts = [] := popMin_nil_iff.mp hts
      subst this
      exact List.Perm.refl _
    | some p =>
      obtain ⟨m2, rest2⟩ := p
      rw [hts] at h
      dsimp only at h
      by_cases hlt : keyLt m2 t
      · rw [if_pos hlt] at h
        simp only [Option.some.injEq, Prod.mk.injEq] at h
        obtain ⟨h1, h2⟩ := h
        rw [← h1, ← h2]
        exact List.Perm.trans (List.Perm.swap t m2 rest2) (List.Perm.cons t (ih hts))
      · rw [if_neg hlt] at h
        simp only [Option.some.injEq, Prod.mk.injEq] at h
        obtain ⟨h1, h2⟩ := h
        rw [← h1, ← h2]

theorem popMin_length {l : List ArrivalTask} {m : ArrivalTask}
    {rest : List ArrivalTask} (h : popMin l = some (m, rest)) :
    rest.length + 1 = l.length := by
  have := (popMin_perm h).length_eq
  simpa using this

theorem popMin_min {l : List ArrivalTask} {m : ArrivalTask}
    {rest : List ArrivalTask} (h : popMin l = some (m, rest)) :
    ∀ x ∈ l, keyLe m x := by
  induction l generalizing m rest with
  | nil => simp [popMin] at h
  | cons t ts ih =>
    simp only [popMin] at h
    cases hts : popMin ts with
    | none =>
      rw [hts] at h
      simp only [Option.some.injEq, Prod.mk.injEq] at h
      obtain ⟨rfl, rfl⟩ := h
      have : ts = [] := popMin_nil_iff.mp hts
      subst this
      intro x hx
      simp only [List.mem_singleton] at hx
      subst hx
      exact keyLe_refl _
    | some p =>
      obtain ⟨m2, rest2⟩ := p
      rw [hts] at h
      dsimp only at h
      by_cases hlt : keyLt m2 t
      · rw [if_pos hlt] at h
        simp only [Option.some.injEq, Prod.mk.injEq] at h
        obtain ⟨h1, h2⟩ := h
        rw [← h1]
        intro x hx
        rcases List.mem_cons.mp hx with rfl | hx
        · exact keyLt_keyLe hlt
        · exact ih hts x hx
      · rw [if_neg hlt] at h
        simp only [Option.some.injEq, Prod.mk.injEq] at h
        obtain ⟨h1, h2⟩ := h
        rw [← h1]
        intro x hx
        rcases List.mem_cons.mp hx with rfl | hx
        · exact keyLe_refl _
        · exact keyLe_trans (keyLe_of_not_keyLt hlt) (ih hts x hx)

theorem popMin_not_mem_rest {l : List ArrivalTask} {m : ArrivalTask}
    {rest : List ArrivalTask} (h : popMin l = some (m, rest))
    (hnd : l.Nodup) : m ∉ rest := by
  have hn : (m :: rest).Nodup := ((popMin_perm h).nodup_iff).mpr hnd
  exact (List.nodup_cons.mp hn).1

theorem drainGo_perm :
    ∀ (fuel : Nat) (l : List ArrivalTask), l.length ≤ fuel →
      (drainGo fuel l).Perm l := by
  intro fuel
  induction fuel with
  | zero =>
    intro l hl
    have : l = [] := List.eq_nil_of_length_eq_zero (Nat.le_zero.mp hl)
    subst this
    simp [drainGo]
  | succ n ih =>
    intro l hl
    cases hp : popMin l with
    | none =>
      have : l = [] := popMin_nil_iff.mp hp
      subst this
      simp [drainGo, popMin]
    | some p =>
      obtain ⟨m, rest⟩ := p
      have hlen : rest.length + 1 = l.length := popMin_length hp
      have hrest : rest.length ≤ n := by omega
      have hperm : (drainGo n rest).Perm rest := ih rest hrest
      simp only [drainGo, hp]
      exact List.Perm.trans (List.Perm.cons m hperm) (popMin_perm hp)

theorem drainAll_perm (l : List ArrivalTask) : (drainAll l).Perm l :=
  drainGo_perm l.length l (Nat.le_refl _)

theorem drainGo_sorted :
    ∀ (fuel : Nat) (l : List ArrivalTask), l.length ≤ fuel →
      List.Pairwise keyLe (drainGo fuel l) := by
  intro fuel
  induction fuel with
  | zero => intro l _; simp [drainGo]
  | succ n ih =>
    intro l hl
    cases hp : popMin l with
    | none => simp [drainGo, hp]
    | some p =>
      obtain ⟨m, rest⟩ := p
      have hlen : rest.length + 1 = l.length := popMin_length hp
      have hrest : rest.length ≤ n := by omega
      simp only [drainGo, hp]
      refine List.Pairwise.cons ?_ (ih rest hrest)
      intro x hx
      have hxrest : x ∈ rest := ((drainGo_perm n rest hrest).mem_iff).mp hx
      have hxl : x ∈ l := (popMin_perm hp).mem_iff.mp (List.mem_cons_of_mem m hxrest)
      exact popMin_min hp x hxl

theorem drainAll_sorted (l : List ArrivalTask) :
    List.Pairwise keyLe (drainAll l) :=
  drainGo_sorted l.length l (Nat.le_refl _)

theorem deployLoop_crashed_of_error {register submit : ArrivalTask → Bool}
    {replication : Int} {experiment_path : String} {s : OrchState}
    {t : ArrivalTask} {rest : List ArrivalTask} {e : String}
    (hpop : popMin s.pending = some (t, rest))
    (hfail : deployTask register submit replication experiment_path t =
      Except.error e) :
    deployLoop register submit replication experiment_path s =
      RunOutcome.crashed e { s with pending := rest } := by
  unfold deployLoop
  have hlen : rest.length + 1 = s.pending.length := popMin_length hpop
  rw [← hlen]
  simp only [deployGo, hpop, hfail]

theorem prepare_unknown_error {task : ArrivalTask} {replication : Int}
    {experiment_path : String} {name tp0 : String} {tps : List String}
    (hvar : task.variant = ExperimentType.unknown name)
    (htm : task.type_map = tp0 :: tps) :
    prepare_experiment_maps task replication experiment_path =
      Except.error (String.append ("Cannot handle type of task: ") name) := by
  unfold prepare_experiment_maps
  rw [htm]
  simp [renderRoles, render_template, hvar]

theorem deployTask_error_of_prepare {register submit : ArrivalTask → Bool}
    {replication : Int} {experiment_path : String} {task : ArrivalTask}
    {e : String}
    (hprep : prepare_experiment_maps task replication experiment_path =
      Except.error e) :
    deployTask register submit replication experiment_path task =
      Except.error e := by
  unfold deployTask
  rw [hprep]

theorem ratTrunc_mono {x y : ℚ} (h : x ≤ y) : ratTrunc x ≤ ratTrunc y := by
  unfold ratTrunc
  by_cases hx : 0 ≤ x
  · have hy : 0 ≤ y := le_trans hx h
    rw [if_pos hx, if_pos hy]
    exact Int.floor_mono h
  · by_cases hy : 0 ≤ y
    · rw [if_neg hx, if_pos hy]
      have h1 : Int.ceil x ≤ 0 :=
        Int.ceil_le.mpr (by exact_mod_cast le_of_lt (not_le.mp hx))
      have h2 : 0 ≤ Int.floor y := Int.floor_nonneg.mpr hy
      omega
    · rw [if_neg hx, if_neg hy]
      exact Int.ceil_mono h

theorem estimate_epochs_mono {x y : ℚ} (h : x ≤ y) :
    estimate_epochs x ≤ estimate_epochs y := by
  unfold estimate_epochs
  apply ratTrunc_mono
  have hs : (0 : ℚ) < SLOPE := by norm_num [SLOPE]
  exact (div_le_div_iff_of_pos_right hs).mpr (by linarith)

/-- C3: repeatedly popping the pending priority queue yields the admitted
tasks as a permutation of the queue, pairwise ordered by the total queue key
(non-decreasing priority; for equal priorities non-decreasing arrival
sequence number, i.e. admission order), and the key comparison is total, so
popping never fails on an incomparable pair. -/
theorem priority_queue_yields_sorted_stable_total (l : List ArrivalTask) :
    (drainAll l).Perm l ∧ List.Pairwise keyLe (drainAll l) ∧
      (∀ a b : ArrivalTask, keyLe a b ∨ keyLe b a) :=
  ⟨drainAll_perm l, drainAll_sorted l, keyLe_total⟩

/-- C4: `wait_for_jobs_to_complete` with `others = None` on an empty
`deployed_tasks` set returns at once: the loop guard fails immediately, so
there are zero loop bodies (hence zero polls and zero sleeps), and the state,
including `pending_tasks`, `deployed_tasks` and `completed_tasks`, is
returned unchanged. -/
theorem wait_for_jobs_empty_deployed_is_noop
    (status : Nat → ArrivalTask → Option String) (fuel : Nat) (s : OrchState)
    (h : s.deployed = ∅) :
    wait_for_jobs_to_complete status fuel none s = (s, 0) := by
  unfold wait_for_jobs_to_complete
  cases fuel with
  | zero => rfl
  | succ n => simp [waitLoop, h]

/-- Witness for C4 at a concrete state with an empty deployed set. -/
theorem wait_for_jobs_empty_deployed_is_noop_witness :
    (⟨[c2_task], ∅, ∅, 1, 0⟩ : OrchState).deployed = ∅ ∧
      wait_for_jobs_to_complete (fun _ _ => none) 7 none
        ⟨[c2_task], ∅, ∅, 1, 0⟩ = (⟨[c2_task], ∅, ∅, 1, 0⟩, 0) :=
  ⟨by decide,
    wait_for_jobs_empty_deployed_is_noop (fun _ _ => none) 7
      ⟨[c2_task], ∅, ∅, 1, 0⟩ (by decide)⟩

/-- C2: in one iteration of the polling loop of `wait_for_jobs_to_complete`,
for any task currently deployed: a failed status query (`none`, the caught
exception) leaves the task in `deployed_tasks`, so it is polled again on the
next iteration and no error reaches the caller; a successful query returning
`Completed`, `Failed` or `Succeeded` removes the task from `deployed_tasks`
and adds it to `completed_tasks` in that same iteration; and no task ever
re-enters `deployed_tasks`, so a retired task is never polled again. -/
theorem wait_iteration_terminal_moves_and_failure_retries
    (status : ArrivalTask → Option String) (s : OrchState) (t : ArrivalTask)
    (ht : t ∈ s.deployed) :
    (status t = none → t ∈ (waitIteration status s).deployed) ∧
      (∀ st : String, status t = some st →
        (st = "Completed" ∨ st = "Failed" ∨ st = "Succeeded") →
        t ∉ (waitIteration status s).deployed ∧
          t ∈ (waitIteration status s).completed) ∧
      (∀ u : ArrivalTask, u ∉ s.deployed →
        u ∉ (waitIteration status s).deployed) := by
  refine ⟨?_, ?_, ?_⟩
  · intro hnone
    simp [waitIteration, Finset.mem_sdiff, Finset.mem_filter, statusIsTerminal,
      hnone, ht]
  · intro st hst hterm
    have hb : statusIsTerminal (status t) = true := by
      rw [hst]
      rcases hterm with h | h | h <;> simp [statusIsTerminal, h]
    constructor
    · simp [waitIteration, Finset.mem_sdiff, Finset.mem_filter, hb, ht]
    · simp [waitIteration, Finset.mem_union, Finset.mem_filter, hb, ht]
  · intro u hu
    simp only [waitIteration, Finset.mem_sdiff, Finset.mem_filter]
    intro hmem
    exact hu hmem.1

/-- Witness for C2 at a concrete deployed task whose status query succeeds
with the terminal status `Succeeded`: the task leaves `deployed_tasks` and
enters `completed_tasks` in that iteration. -/
theorem wait_iteration_terminal_moves_and_failure_retries_witness :
    c2_task ∈ c2_state.deployed ∧
      (c2_task ∉ (waitIteration c2_status c2_state).deployed ∧
        c2_task ∈ (waitIteration c2_status c2_state).completed) :=
  ⟨by decide,
    (wait_iteration_terminal_moves_and_failure_retries c2_status c2_state
          c2_task (by decide)).2.1 ("Succeeded") rfl (Or.inr (Or.inr rfl))⟩

/-- C5 counterexample: the deployment loop has no exception handler, so one
failed job submission terminates the whole control loop.  With `c5_taskFail`
and `c5_taskLater` pending and a submission oracle that raises only for the
first, the loop ends in `crashed` (the `DeploymentFailed` error escapes the
policy instead of being logged), the later task is never deployed (it is left
in `pending_tasks`, `deployed_tasks` stays empty), refuting that the policy
"continues deploying the remaining pending tasks". -/
theorem failed_submission_aborts_batch_cex :
    deployLoop (fun _ => true) c5_submit 1 ("experiments") c5_state =
      RunOutcome.crashed ("job submission raised for fail")
        ⟨[c5_taskLater], ∅, ∅, 2, 0⟩ ∧
      c5_taskLater ∈ (⟨[c5_taskLater], ∅, ∅, 2, 0⟩ : OrchState).pending ∧
      (⟨[c5_taskLater], ∅, ∅, 2, 0⟩ : OrchState).deployed = ∅ ∧
      c5_taskFail ∉ (⟨[c5_taskLater], ∅, ∅, 2, 0⟩ : OrchState).pending := by
  decide

/-- C5 (amended): when artifact registration or job submission raises for
the task just popped from `pending_tasks`, the exception propagates uncaught
out of the deployment loop, aborting the run: the loop ends in `crashed`
with only `pending_tasks` changed to the remaining queue, so the remaining
pending tasks are never deployed, and the failing task — already removed
from `pending_tasks` and never added to `deployed_tasks` — is left in no
task set. -/
theorem deployment_failure_propagates_uncaught
    (register submit : ArrivalTask → Bool) (replication : Int)
    (experiment_path : String) (s : OrchState) (t : ArrivalTask)
    (rest : List ArrivalTask) (e : String)
    (hpop : popMin s.pending = some (t, rest))
    (hfail : deployTask register submit replication experiment_path t =
      Except.error e)
    (hnd : s.pending.Nodup) :
    deployLoop register submit replication experiment_path s =
      RunOutcome.crashed e { s with pending := rest } ∧
      t ∉ ({ s with pending := rest } : OrchState).pending ∧
      ({ s with pending := rest } : OrchState).deployed = s.deployed ∧
      ({ s with pending := rest } : OrchState).completed = s.completed :=
  ⟨deployLoop_crashed_of_error hpop hfail, popMin_not_mem_rest hpop hnd,
    rfl, rfl⟩

/-- Witness for C5 (amended) at the concrete two-task state. -/
theorem deployment_failure_propagates_uncaught_witness :
    popMin c5_state.pending = some (c5_taskFail, [c5_taskLater]) ∧
      deployTask (fun _ => true) c5_submit 1 ("experiments") c5_taskFail =
        Except.error ("job submission raised for fail") ∧
      (deployLoop (fun _ => true) c5_submit 1 ("experiments") c5_state =
          RunOutcome.crashed ("job submission raised for fail")
            { c5_state with pending := [c5_taskLater] } ∧
        c5_taskFail ∉
          ({ c5_state with pending := [c5_taskLater] } : OrchState).pending ∧
        ({ c5_state with pending := [c5_taskLater] } : OrchState).deployed =
          c5_state.deployed ∧
        ({ c5_state with pending := [c5_taskLater] } : OrchState).completed =
          c5_state.completed) :=
  ⟨by decide, rfl,
    deployment_failure_propagates_uncaught (fun _ => true) c5_submit 1
      ("experiments") c5_state c5_taskFail [c5_taskLater]
      ("job submission raised for fail") (by decide) rfl (by decide)⟩

/-- C6 counterexample: rendering for the unrecognized-variant task
`c6_task` does fail fast, but in the deployment loop the failure loses the
task from all three sets and crashes the control loop.  Starting from
`c6_state`, in which `c6_task` is the only pending task, the run ends in
`crashed` and the final state contains the task in none of `pending_tasks`,
`deployed_tasks` and `completed_tasks` — refuting that the failure "neither
corrupts the pending set ... nor crashes the policy's control loop". -/
theorem unknown_variant_task_lost_cex :
    deployLoop (fun _ => true) (fun _ => true) 1 ("experiments") c6_state =
      RunOutcome.crashed ("Cannot handle type of task: quantum")
        ⟨[], ∅, ∅, 1, 0⟩ ∧
      c6_task ∉ (⟨[], ∅, ∅, 1, 0⟩ : OrchState).pending ∧
      c6_task ∉ (⟨[], ∅, ∅, 1, 0⟩ : OrchState).deployed ∧
      c6_task ∉ (⟨[], ∅, ∅, 1, 0⟩ : OrchState).completed := by
  decide

/-- C6 (amended): `render_template` fails fast with the construction error
for every unrecognized variant and succeeds for the two recognized variants
(no silent default template); however, when such a task reaches the
deployment loop the construction error is raised after the task has been
popped from `pending_tasks`, so the uncaught exception crashes the control
loop and the task is lost from all three sets. -/
theorem render_unknown_variant_fails_fast
    (t : ArrivalTask) (tpe : String) (replication : Int)
    (experiment_path : String) :
    (∀ name : String, t.variant = ExperimentType.unknown name →
      render_template t tpe replication experiment_path =
        Except.error (String.append ("Cannot handle type of task: ") name)) ∧
      (t.variant = ExperimentType.federated ∨
          t.variant = ExperimentType.distributed →
        ∃ c : String,
          render_template t tpe replication experiment_path = Except.ok c) ∧
      (∀ (register submit : ArrivalTask → Bool) (s : OrchState)
          (rest : List ArrivalTask) (name tp0 : String) (tps : List String),
        popMin s.pending = some (t, rest) →
        t.variant = ExperimentType.unknown name →
        t.type_map = tp0 :: tps →
        s.pending.Nodup →
        deployLoop register submit replication experiment_path s =
          RunOutcome.crashed
            (String.append ("Cannot handle type of task: ") name)
            { s with pending := rest } ∧
          t ∉ rest) := by
  refine ⟨?_, ?_, ?_⟩
  · intro name hvar
    simp [render_template, hvar]
  · rintro (hvar | hvar)
    · exact ⟨String.append ("node.jinja.yaml:") tpe, by
        simp [render_template, hvar]⟩
    · exact ⟨String.append ("dist_node.jinja.yaml:") tpe, by
        simp [render_template, hvar]⟩
  · intro register submit s rest name tp0 tps hpop hvar htm hnd
    have hfail : deployTask register submit replication experiment_path t =
        Except.error (String.append ("Cannot handle type of task: ") name) :=
      deployTask_error_of_prepare (prepare_unknown_error hvar htm)
    exact ⟨deployLoop_crashed_of_error hpop hfail,
      popMin_not_mem_rest hpop hnd⟩

/-- Witness for C6 (amended) at the concrete unrecognized-variant task. -/
theorem render_unknown_variant_fails_fast_witness :
    c6_task.variant = ExperimentType.unknown ("quantum") ∧
      render_template c6_task ("learner") 1 ("experiments") =
        Except.error ("Cannot handle type of task: quantum") ∧
      (deployLoop (fun _ => true) (fun _ => true) 1 ("experiments") c6_state =
          RunOutcome.crashed ("Cannot handle type of task: quantum")
            { c6_state with pending := [] } ∧
        c6_task ∉ ([] : List ArrivalTask)) :=
  ⟨by decide,
    (render_unknown_variant_fails_fast c6_task ("learner") 1
          ("experiments")).1 ("quantum") (by decide),
    (render_unknown_variant_fails_fast c6_task ("learner") 1
          ("experiments")).2.2 (fun _ => true) (fun _ => true) c6_state []
      ("quantum") ("learner") [] (by decide) (by decide) (by decide)
      (by decide)⟩

/-- C1 (code bug evaluation): one concrete run iteration that admits a
single task and then fails to submit it.  Admission raises `admitted` to 1
with nothing dropped; the deployment loop pops the task from
`pending_tasks`, the submission raises before `deployed_tasks.add`, and the
uncaught exception ends the run in state `c1_lost`, whose three task sets
are all empty: the task has been lost, and
`|pending| + |deployed| + |completed|` (0) differs from
`admitted - dropped` (1), violating the claimed conservation invariant. -/
theorem submission_failure_loses_admitted_task :
    simulatedIteration [Except.ok c1_task] (fun _ => true) (fun _ => false) 1
        ("experiments") ⟨[], ∅, ∅, 0, 0⟩ =
      RunOutcome.crashed ("job submission raised for 94f66b1e") c1_lost ∧
      taskCount c1_lost = 0 ∧
      c1_lost.admitted - c1_lost.dropped = 1 ∧
      taskCount c1_lost ≠ c1_lost.admitted - c1_lost.dropped := by
  decide

/-- C7: for a fixed `total_time`, the epoch budget assigned by
`_optimize_epochs` is monotonically non-increasing in the summed estimated
cost of the pending queue, and for every input it lies within
`[1, BASE_EPOCHS]` with `BASE_EPOCHS = 10`. -/
theorem optimize_epochs_monotone_and_bounded
    (total_time : ℚ) (p1 p2 : List ArrivalTask)
    (h : current_queue_time p1 ≤ current_queue_time p2) :
    optimizeValue total_time p2 ≤ optimizeValue total_time p1 ∧
      ∀ p : List ArrivalTask,
        1 ≤ optimizeValue total_time p ∧
          optimizeValue total_time p ≤ BASE_EPOCHS := by
  unfold optimizeValue
  constructor
  · have h3 : estimate_epochs (total_time - current_queue_time p2) ≤
        estimate_epochs (total_time - current_queue_time p1) :=
      estimate_epochs_mono (by linarith)
    exact min_le_min (max_le_max h3 le_rfl) le_rfl
  · intro p
    exact ⟨le_min (le_max_right _ _) (by norm_num [BASE_EPOCHS]),
      min_le_right _ _⟩

/-- Witness for C7: the empty backlog against one pending 10-epoch task. -/
theorem optimize_epochs_monotone_and_bounded_witness :
    current_queue_time [] ≤ current_queue_time [c8_pending] ∧
      (optimizeValue 100 [c8_pending] ≤ optimizeValue 100 [] ∧
        ∀ p : List ArrivalTask,
          1 ≤ optimizeValue 100 p ∧ optimizeValue 100 p ≤ BASE_EPOCHS) :=
  ⟨by
      norm_num [current_queue_time, estimated_time, INTERCEPT, SLOPE,
        c8_pending],
    optimize_epochs_monotone_and_bounded 100 [] [c8_pending]
      (by
        norm_num [current_queue_time, estimated_time, INTERCEPT, SLOPE,
          c8_pending])⟩

/-- C8 (spec Scenario C): with `total_time = 100` and one pending task
requesting 10 epochs (estimated cost 266.9721, so the allocated time for a
new task is negative), `_optimize_epochs` clamps the epoch budget of a newly
admitted task requesting 50 epochs to exactly 1 — never zero or negative. -/
theorem scenario_c_assigns_exactly_one_epoch :
    optimizeValue 100 [c8_pending] = 1 ∧
      optimize_epochs (some 100) [c8_pending] c8_new =
        Except.ok { c8_new with total_epochs := 1 } := by
  have hA : (100 - current_queue_time [c8_pending] - INTERCEPT) / SLOPE =
      -1638092 / 270135 := by
    norm_num [current_queue_time, estimated_time, INTERCEPT, SLOPE, c8_pending]
  have hneg : ¬ ((0 : ℚ) ≤ -1638092 / 270135) := by norm_num
  have hceil : Int.ceil ((-1638092 : ℚ) / 270135) = -6 := by
    rw [Int.ceil_eq_iff]
    constructor <;> norm_num
  have h1 : optimizeValue 100 [c8_pending] = 1 := by
    unfold optimizeValue estimate_epochs ratTrunc
    rw [hA, if_neg hneg, hceil]
    decide
  refine ⟨h1, ?_⟩
  simp [optimize_epochs, h1]

/-- C9: `total_time` is not among the attributes ever assigned on an
`OptimizedSimulatedOrchestrator` constructed through `__init__`, so every
call of `_optimize_epochs` on such an instance (in particular the one made
for the first admitted arrival inside `run`) hits the `AttributeError`
branch of the attribute lookup instead of returning an epoch assignment. -/
theorem optimize_epochs_total_time_attribute_error :
    ("total_time") ∉ optimizedOrchestratorAttrs ∧
      init_total_time = none ∧
      ∀ (pending : List ArrivalTask) (task : ArrivalTask),
        optimize_epochs init_total_time pending task =
          Except.error ("AttributeError: total_time") :=
  ⟨by decide, rfl, fun _ _ => rfl⟩

/-- C10: the status query of `wait_for_jobs_to_complete` always uses job
name `trainjob-{task.id}` in the fixed namespace `test`, whatever namespace
is configured, while jobs are submitted to the configured namespace; when
the configured namespace differs from `test`, completion detection queries a
namespace other than the one the jobs were deployed to. -/
theorem status_query_namespace_fixed_test
    (cfg : DistributedConfig) (task_id : String) :
    status_query_namespace cfg = "test" ∧
      status_query_name task_id = String.append ("trainjob-") task_id ∧
      (cfg.cluster_config.cluster_namespace ≠ "test" →
        submit_namespace cfg ≠ status_query_namespace cfg) :=
  ⟨rfl, rfl, fun h => h⟩

/-- Witness for C10 at a configuration whose namespace is `production`. -/
theorem status_query_namespace_fixed_test_witness :
    (⟨⟨("production"), ⟨true⟩⟩⟩ :
        DistributedConfig).cluster_config.cluster_namespace ≠ "test" ∧
      submit_namespace ⟨⟨("production"), ⟨true⟩⟩⟩ ≠
        status_query_namespace ⟨⟨("production"), ⟨true⟩⟩⟩ :=
  ⟨by decide,
    (status_query_namespace_fixed_test ⟨⟨("production"), ⟨true⟩⟩⟩ ("x")).2.2
      (by decide)⟩

end FLTK
